import Mathlib

/-!
Verification of the input-reconciliation engine of
`src/vs/editor/browser/controller/textAreaInput.ts`.

The platform text widget is modelled as a record; JavaScript strings are
modelled as lists of UTF-16 code units (`List Nat`), since the source
diffing and surrogate checks operate on code units (a lone surrogate is
not a valid Unicode scalar value, so Lean `String` cannot represent it).
Timestamps (`Date.now()`) are modelled as natural numbers; each handler
receives the current time `now` as a parameter.

Definitions are translated from the source file.  The companion module
`textAreaState.ts` (class `TextAreaState` and its methods) is not part of
this repository snapshot; those definitions are modelled from the spec and
carry a doc comment saying so.
-/

/-- A JavaScript string: a sequence of UTF-16 code units. -/
abbrev JSString : Type := List Nat

/-- Code units of an ASCII Lean string, for concrete scenarios. -/
def jsOf (s : String) : JSString := s.data.map Char.toNat

/-- Modelled from the spec: `strings.isHighSurrogate` from `vs/base/common/strings`
is not in the snapshot; a high-surrogate code unit is one in the range
0xD800..0xDBFF (the spec speaks of "a single high-surrogate code unit"). -/
def isHighSurrogate (charCode : Nat) : Bool :=
  0xD800 ≤ charCode && charCode ≤ 0xDBFF

/-- Editor position (`vs/editor/common/core/position`): line number and column. -/
structure Position where
  lineNumber : Nat
  column : Nat
deriving DecidableEq, Repr

/-- Editor selection (`vs/editor/common/core/selection`), as built at the end of
the `selectionchange` listener from a start position and an end position. -/
structure Selection where
  selectionStartLineNumber : Nat
  selectionStartColumn : Nat
  positionLineNumber : Nat
  positionColumn : Nat
deriving DecidableEq, Repr

/-- `ITypeData` from `textAreaState.ts`: the deduced edit intent. -/
structure ITypeData where
  text : JSString
  replaceCharCnt : Nat
deriving DecidableEq, Repr

/-- The `ReadFromTextArea` enum of the source (`Type`, `Paste`);
`Type` is a Lean keyword, so the constructors are suffixed with `Cmd`. -/
inductive ReadFromTextArea where
  | typeCmd
  | pasteCmd
deriving DecidableEq, Repr

/-- Modelled from the spec: the `TextAreaState` record of `textAreaState.ts`
(not in the snapshot) — value, selection offsets, and optional editor-position
anchors, absent on freshly reset state. -/
structure TextAreaState where
  value : JSString
  selectionStart : Nat
  selectionEnd : Nat
  selectionStartPosition : Option Position
  selectionEndPosition : Option Position
deriving DecidableEq, Repr

/-- Modelled from the spec: the program-wide empty sentinel snapshot
(value empty, selection 0..0, no anchors). -/
def TextAreaState.EMPTY : TextAreaState :=
  { value := [], selectionStart := 0, selectionEnd := 0
    selectionStartPosition := none, selectionEndPosition := none }

/-- Modelled from the spec: collapse the selection to its end
(`selectionStart == selectionEnd == selectionEnd`).  The spec does not say
anchors change, so they are kept; no claim observes them here. -/
def TextAreaState.collapseSelection (st : TextAreaState) : TextAreaState :=
  { st with selectionStart := st.selectionEnd }

/-- Modelled from the spec: a snapshot whose full value is `text` and whose
entire value is selected, with no anchors (freshly reset state). -/
def TextAreaState.selectedText (text : JSString) : TextAreaState :=
  { value := text, selectionStart := 0, selectionEnd := text.length
    selectionStartPosition := none, selectionEndPosition := none }

/-- Length of the longest common initial run of two code-unit lists. -/
def commonStartLen : List Nat → List Nat → Nat
  | a :: as, b :: bs => if a = b then commonStartLen as bs + 1 else 0
  | _, _ => 0

/-- Length of the longest common final run of two code-unit lists. -/
def commonEndLen (a b : List Nat) : Nat :=
  commonStartLen a.reverse b.reverse

/-- Modelled from the spec: `TextAreaState.deduceInput` of `textAreaState.ts`
(not in the snapshot).  Longest common start run `p` and, independently,
longest common end run, clamped so the two regions do not overlap
(`p + s ≤ min (len old) (len new)`); inserted text is `new[p .. len new - s)`;
replaced count is `len old - p - s`.  If the inserted text is empty and the
old and new selection boundaries are identical, the result is the no-op
intent.  The emoji-intermediate suppression the spec attaches to
`couldBeEmojiInput` is implemented by the caller in the source file
(the `input` listener checks the returned intent for a lone high surrogate),
so it is not duplicated here and the flag is unused. -/
def TextAreaState.deduceInput (oldState newState : TextAreaState)
    (_couldBeEmojiInput : Bool) : ITypeData :=
  let lenOld := oldState.value.length
  let lenNew := newState.value.length
  let p := commonStartLen oldState.value newState.value
  let s := min (commonEndLen oldState.value newState.value) (min lenOld lenNew - p)
  let text := (newState.value.drop p).take (lenNew - s - p)
  if text = [] ∧ oldState.selectionStart = newState.selectionStart ∧
      oldState.selectionEnd = newState.selectionEnd then
    { text := [], replaceCharCnt := 0 }
  else
    { text := text, replaceCharCnt := lenOld - p - s }

/-- The platform textarea element: its live value, selection and whether it is
the focused element.  (The `FastDomNode` wrapper adds nothing observable.) -/
structure Textarea where
  value : JSString
  selectionStart : Nat
  selectionEnd : Nat
  focused : Bool
deriving DecidableEq, Repr

/-- The `TextAreaWrapper` class of the source: the element plus the
self-inflicted-change timestamp `_ignoreSelectionChangeTime`. -/
structure TextAreaWrapper where
  actual : Textarea
  ignoreSelectionChangeTime : Nat
deriving DecidableEq, Repr

/-- `TextAreaWrapper.setIgnoreSelectionChangeTime`: record the current time.
The `reason` argument of the source is a debug label and is dropped. -/
def TextAreaWrapper.setIgnoreSelectionChangeTime (w : TextAreaWrapper) (now : Nat) :
    TextAreaWrapper :=
  { w with ignoreSelectionChangeTime := now }

/-- `TextAreaWrapper.getIgnoreSelectionChangeTime`. -/
def TextAreaWrapper.getIgnoreSelectionChangeTime (w : TextAreaWrapper) : Nat :=
  w.ignoreSelectionChangeTime

/-- `TextAreaWrapper.resetSelectionChangeTime`: zero the timestamp. -/
def TextAreaWrapper.resetSelectionChangeTime (w : TextAreaWrapper) : TextAreaWrapper :=
  { w with ignoreSelectionChangeTime := 0 }

/-- `TextAreaWrapper.getValue`. -/
def TextAreaWrapper.getValue (w : TextAreaWrapper) : JSString :=
  w.actual.value

/-- `TextAreaWrapper.setValue`: no-op when the value is unchanged; otherwise
mark the self-inflicted timestamp and write the value. -/
def TextAreaWrapper.setValue (w : TextAreaWrapper) (now : Nat) (value : JSString) :
    TextAreaWrapper :=
  if w.actual.value = value then w
  else
    { actual := { w.actual with value := value }, ignoreSelectionChangeTime := now }

/-- `TextAreaWrapper.getSelectionStart`. -/
def TextAreaWrapper.getSelectionStart (w : TextAreaWrapper) : Nat :=
  w.actual.selectionStart

/-- `TextAreaWrapper.getSelectionEnd`. -/
def TextAreaWrapper.getSelectionEnd (w : TextAreaWrapper) : Nat :=
  w.actual.selectionEnd

/-- `TextAreaWrapper.setSelectionRange`: no-op when the element is focused with
the identical range; otherwise mark the self-inflicted timestamp, focus the
element if needed and write the range.  The Firefox-iframe refocus branch only
refocuses an already-focused element (unobservable here); the scroll-offset
save/restore and the swallowed IE exception concern state outside this model. -/
def TextAreaWrapper.setSelectionRange (w : TextAreaWrapper) (now : Nat)
    (selectionStart selectionEnd : Nat) : TextAreaWrapper :=
  if w.actual.focused ∧ w.actual.selectionStart = selectionStart ∧
      w.actual.selectionEnd = selectionEnd then
    w
  else if w.actual.focused then
    { actual :=
        { w.actual with selectionStart := selectionStart, selectionEnd := selectionEnd }
      ignoreSelectionChangeTime := now }
  else
    { actual :=
        { w.actual with
          focused := true
          selectionStart := selectionStart
          selectionEnd := selectionEnd }
      ignoreSelectionChangeTime := now }

/-- Modelled from the spec: `TextAreaState.readFromTextArea` of
`textAreaState.ts` (not in the snapshot) — a confirmed read of the widget's
value and selection.  The spec's anchor recomputation ("recomputed relative to
the new selection" when the unchanged surroundings can be located, otherwise
cleared) is modelled as cleared; no claim observes the anchors of a freshly
read state. -/
def TextAreaState.readFromTextArea (_prev : TextAreaState) (w : TextAreaWrapper) :
    TextAreaState :=
  { value := w.getValue, selectionStart := w.getSelectionStart
    selectionEnd := w.getSelectionEnd
    selectionStartPosition := none, selectionEndPosition := none }

/-- Modelled from the spec: `TextAreaState.writeToTextArea` of
`textAreaState.ts` (not in the snapshot) — idempotent write: the value write
is skipped when the widget already holds this value (that check is also inside
`TextAreaWrapper.setValue`), and the selection write happens exactly when
`shouldSetSelection` holds. -/
def TextAreaState.writeToTextArea (st : TextAreaState) (now : Nat)
    (w : TextAreaWrapper) (shouldSetSelection : Bool) : TextAreaWrapper :=
  let w := w.setValue now st.value
  if shouldSetSelection then
    w.setSelectionRange now st.selectionStart st.selectionEnd
  else
    w

/-- The error raised by `ClipboardEventUtils` when neither clipboard API is
present (`Cannot use text data!`). -/
inductive ClipboardError where
  | cannotUseTextData
deriving DecidableEq, Repr

/-- Result of a successful `ClipboardEventUtils.setTextData`: either the
modern event data transfer received plain text and optional rich text, or the
legacy global clipboard received plain text only. -/
inductive ClipboardWrite where
  | modern (plain : JSString) (html : Option JSString)
  | legacy (plain : JSString)
deriving DecidableEq, Repr

/-- Plain-text payload of a clipboard write. -/
def ClipboardWrite.plainText : ClipboardWrite → JSString
  | .modern plain _ => plain
  | .legacy plain => plain

/-- Rich-text payload of a clipboard write (`none` when absent). -/
def ClipboardWrite.htmlText : ClipboardWrite → Option JSString
  | .modern _ html => html
  | .legacy _ => none

/-- Whether an `Except` result is a success. -/
def exceptIsOk {ε α : Type} : Except ε α → Bool
  | .ok _ => true
  | .error _ => false

/-- The clipboard environment of one clipboard event: `eventClipboardData`
models `e.clipboardData` (when present, carrying the plain text a `getData`
call would return) and `windowClipboardData` models the legacy global
`window.clipboardData` likewise. -/
structure ClipboardEnv where
  eventClipboardData : Option JSString
  windowClipboardData : Option JSString
deriving DecidableEq, Repr

namespace ClipboardEventUtils

/-- `ClipboardEventUtils.canUseTextData`: true when either the event-bound
clipboard data or the legacy global clipboard object is present. -/
def canUseTextData (env : ClipboardEnv) : Bool :=
  env.eventClipboardData.isSome || env.windowClipboardData.isSome

/-- `ClipboardEventUtils.getTextData`: read from the event clipboard when
present, else from the legacy global clipboard, else raise the
cannot-use-text-data error. -/
def getTextData (env : ClipboardEnv) : Except ClipboardError JSString :=
  match env.eventClipboardData with
  | some data => .ok data
  | none =>
    match env.windowClipboardData with
    | some data => .ok data
    | none => .error .cannotUseTextData

/-- `ClipboardEventUtils.setTextData`: on the event clipboard, write plain
text and, when `richText` is non-null, rich text; on the legacy global
clipboard, write plain text only; otherwise raise the cannot-use-text-data
error. -/
def setTextData (env : ClipboardEnv) (text : JSString) (richText : Option JSString) :
    Except ClipboardError ClipboardWrite :=
  if env.eventClipboardData.isSome then
    .ok (.modern text richText)
  else if env.windowClipboardData.isSome then
    .ok (.legacy text)
  else
    .error .cannotUseTextData

end ClipboardEventUtils

/-- The mutable state of the `TextAreaInput` controller: the current snapshot,
the focus and composition flags, the pending command, the wrapped textarea,
and the `selectionchange` listener's closure-local
`previousSelectionChangeEventTime`. -/
structure TextAreaInput where
  textAreaState : TextAreaState
  hasFocus : Bool
  isDoingComposition : Bool
  nextCommand : ReadFromTextArea
  textArea : TextAreaWrapper
  previousSelectionChangeEventTime : Nat
deriving DecidableEq, Repr

/-- Events fired by the engine on its output emitters; the
selection-change-request channel is returned separately by its handler. -/
inductive Event where
  | type (t : ITypeData)
  | paste (text : JSString)
  | compositionStart
  | compositionUpdate (data : JSString)
  | compositionEnd
deriving DecidableEq, Repr

namespace TextAreaInput

/-- `TextAreaInput._setAndWriteTextAreaState`: collapse the selection when
focus is absent, write to the textarea (selection only when focused), then
store the snapshot as current. -/
def setAndWriteTextAreaState (e : TextAreaInput) (now : Nat)
    (textAreaState : TextAreaState) : TextAreaInput :=
  let textAreaState :=
    if e.hasFocus then textAreaState else textAreaState.collapseSelection
  { e with
    textArea := textAreaState.writeToTextArea now e.textArea e.hasFocus
    textAreaState := textAreaState }

/-- The `compositionstart` listener: ignore when already composing; otherwise
enter composition, reset the widget to the empty snapshot unless on Edge/IE
(where setting `.value` would cancel the composition), and fire
composition-start. -/
def onCompositionStart (e : TextAreaInput) (isEdgeOrIE : Bool) (now : Nat) :
    TextAreaInput × List Event :=
  if e.isDoingComposition then
    (e, [])
  else
    let e := { e with isDoingComposition := true }
    let e :=
      if !isEdgeOrIE then e.setAndWriteTextAreaState now TextAreaState.EMPTY else e
    (e, [Event.compositionStart])

/-- The `deduceInputFromTextAreaValue` helper of the constructor: read the
textarea and diff against the last observed state. -/
def deduceInputFromTextAreaValue (e : TextAreaInput) (couldBeEmojiInput : Bool) :
    TextAreaState × ITypeData :=
  let oldState := e.textAreaState
  let newState := oldState.readFromTextArea e.textArea
  (newState, TextAreaState.deduceInput oldState newState couldBeEmojiInput)

/-- The `deduceComposition` helper of the constructor: the new state selects
the composition text; the intent replaces the old selection with it. -/
def deduceComposition (e : TextAreaInput) (text : JSString) :
    TextAreaState × ITypeData :=
  let oldState := e.textAreaState
  let newState := TextAreaState.selectedText text
  (newState,
    { text := newState.value
      replaceCharCnt := oldState.selectionEnd - oldState.selectionStart })

/-- The UTF-16 code units of the locale tag `ja`. -/
def jaLocale : JSString := [106, 97]

/-- The `compositionend` listener: deduce the typed input (from the live
textarea on Edge/IE with a Japanese locale, otherwise from the event data) and
fire a type event; on Edge/IE/Chrome re-read the textarea into the snapshot;
then, only when composing, leave composition and fire composition-end. -/
def onCompositionEnd (e : TextAreaInput) (isEdgeOrIE isChrome : Bool)
    (locale data : JSString) (_now : Nat) : TextAreaInput × List Event :=
  let (e, events) :=
    if isEdgeOrIE ∧ locale = jaLocale then
      let (newState, typeInput) := e.deduceInputFromTextAreaValue false
      ({ e with textAreaState := newState }, [Event.type typeInput])
    else
      let (newState, typeInput) := e.deduceComposition data
      ({ e with textAreaState := newState }, [Event.type typeInput])
  let e :=
    if isEdgeOrIE ∨ isChrome then
      { e with textAreaState := e.textAreaState.readFromTextArea e.textArea }
    else e
  if !e.isDoingComposition then
    (e, events)
  else
    ({ e with isDoingComposition := false }, events ++ [Event.compositionEnd])

/-- The `input` listener: mark the self-inflicted timestamp; while composing,
only the Chrome-v55/56 workaround synthesizes a type and composition-update
from the live value; outside composition, deduce the input, suppress a lone
high-surrogate intent with zero replace count (keeping the old snapshot),
store the new snapshot, and fire a type event (under the `Type` pending
command) or a paste event (under `Paste`, which is then reset) when the
deduced text is non-empty. -/
def onInput (e : TextAreaInput) (isChromev56 isMacintosh : Bool) (now : Nat) :
    TextAreaInput × List Event :=
  let e := { e with textArea := e.textArea.setIgnoreSelectionChangeTime now }
  if e.isDoingComposition then
    if isChromev56 then
      let (newState, typeInput) := e.deduceComposition e.textArea.getValue
      ({ e with textAreaState := newState },
        [Event.type typeInput, Event.compositionUpdate typeInput.text])
    else
      (e, [])
  else
    let (newState, typeInput) := e.deduceInputFromTextAreaValue isMacintosh
    if typeInput.replaceCharCnt = 0 ∧ typeInput.text.length = 1 ∧
        isHighSurrogate (typeInput.text.headD 0) then
      (e, [])
    else
      let e := { e with textAreaState := newState }
      if e.nextCommand = ReadFromTextArea.typeCmd then
        if typeInput.text ≠ [] then
          (e, [Event.type typeInput])
        else
          (e, [])
      else
        let events := if typeInput.text ≠ [] then [Event.paste typeInput.text] else []
        ({ e with nextCommand := ReadFromTextArea.typeCmd }, events)

/-- The `paste` listener: mark the self-inflicted timestamp; when the
clipboard text can be read, fire a paste event if the text is non-empty;
otherwise clear the textarea when its selection is non-collapsed (for a clean
subsequent read) and arm the `Paste` pending command.  The fired paste payload
is returned as an `Option`. -/
def onPaste (e : TextAreaInput) (env : ClipboardEnv) (now : Nat) :
    TextAreaInput × Option JSString :=
  let e := { e with textArea := e.textArea.setIgnoreSelectionChangeTime now }
  if ClipboardEventUtils.canUseTextData env then
    match ClipboardEventUtils.getTextData env with
    | .ok pastePlainText =>
      if pastePlainText ≠ [] then (e, some pastePlainText) else (e, none)
    | .error _ => (e, none)
  else
    let e :=
      if e.textArea.getSelectionStart ≠ e.textArea.getSelectionEnd then
        e.setAndWriteTextAreaState now TextAreaState.EMPTY
      else e
    ({ e with nextCommand := ReadFromTextArea.pasteCmd }, none)

/-- Decidable equality for `Except`, needed to evaluate concrete clipboard
scenarios. -/
instance {ε α : Type} [DecidableEq ε] [DecidableEq α] : DecidableEq (Except ε α) :=
  fun x y =>
    match x, y with
    | .ok a, .ok b =>
      if h : a = b then isTrue (by rw [h])
      else isFalse (fun hh => h (Except.ok.inj hh))
    | .error a, .error b =>
      if h : a = b then isTrue (by rw [h])
      else isFalse (fun hh => h (Except.error.inj hh))
    | .ok _, .error _ => isFalse (fun hh => Except.noConfusion hh)
    | .error _, .ok _ => isFalse (fun hh => Except.noConfusion hh)

/-- `CopyOptions.forceCopyWithSyntaxHighlighting` is passed in as the `force`
flag; the result records whether `getHTMLToCopy` was called on the host and
the clipboard write performed, if any. -/
structure CopyResult where
  engine : TextAreaInput
  htmlRequested : Bool
  write : Option (Except ClipboardError ClipboardWrite)
deriving DecidableEq, Repr

/-- `TextAreaInput._ensureClipboardGetsEditorSelection`: without a usable
clipboard API, stage the copied text selected inside the textarea; otherwise
ask the host for HTML only when not on Edge/IE and the plain text is under
65536 code units or the force flag is set, then write plain and (possibly
null) rich text through `ClipboardEventUtils.setTextData`. -/
def ensureClipboardGetsEditorSelection (e : TextAreaInput) (env : ClipboardEnv)
    (isEdgeOrIE force : Bool) (copyPlainText copyHTMLFromHost : JSString)
    (now : Nat) : CopyResult :=
  if !ClipboardEventUtils.canUseTextData env then
    { engine := e.setAndWriteTextAreaState now (TextAreaState.selectedText copyPlainText)
      htmlRequested := false
      write := none }
  else
    let requestHTML := !isEdgeOrIE && (decide (copyPlainText.length < 65536) || force)
    let copyHTML : Option JSString := if requestHTML then some copyHTMLFromHost else none
    { engine := e
      htmlRequested := requestHTML
      write := some (ClipboardEventUtils.setTextData env copyPlainText copyHTML) }

/-- The `selectionchange` listener: return unless focused, not composing and
on Chrome-on-Windows; update the burst timestamp and return when under 5ms
since the previous signal; read and zero the self-inflicted timestamp and
return when under 100ms since it; return when the snapshot lacks anchors, when
the live value differs from the snapshot value, or when the live selection
equals the snapshot selection; otherwise resolve both offsets through
`deduceEditorPosition` and the host's `deduceModelPosition` and fire a
selection-change-request.  The two resolution functions live outside this
file's source (in `textAreaState.ts` and the host) and are parameters. -/
def onSelectionChange (e : TextAreaInput) (isChrome isWindows : Bool)
    (deduceEditorPosition : TextAreaState → Nat → Position × Nat × Nat)
    (deduceModelPosition : Position → Nat → Nat → Position)
    (now : Nat) : TextAreaInput × Option Selection :=
  if e.hasFocus = false then
    (e, none)
  else if e.isDoingComposition = true then
    (e, none)
  else if ¬ (isChrome = true ∧ isWindows = true) then
    (e, none)
  else
    let delta1 := now - e.previousSelectionChangeEventTime
    let e := { e with previousSelectionChangeEventTime := now }
    if delta1 < 5 then
      (e, none)
    else
      let delta2 := now - e.textArea.getIgnoreSelectionChangeTime
      let e := { e with textArea := e.textArea.resetSelectionChangeTime }
      if delta2 < 100 then
        (e, none)
      else if e.textAreaState.selectionStartPosition.isNone ∨
          e.textAreaState.selectionEndPosition.isNone then
        (e, none)
      else
        let newValue := e.textArea.getValue
        if e.textAreaState.value ≠ newValue then
          (e, none)
        else
          let newSelectionStart := e.textArea.getSelectionStart
          let newSelectionEnd := e.textArea.getSelectionEnd
          if e.textAreaState.selectionStart = newSelectionStart ∧
              e.textAreaState.selectionEnd = newSelectionEnd then
            (e, none)
          else
            let rs := deduceEditorPosition e.textAreaState newSelectionStart
            let newSelectionStartPosition := deduceModelPosition rs.1 rs.2.1 rs.2.2
            let re := deduceEditorPosition e.textAreaState newSelectionEnd
            let newSelectionEndPosition := deduceModelPosition re.1 re.2.1 re.2.2
            (e, some
              { selectionStartLineNumber := newSelectionStartPosition.lineNumber
                selectionStartColumn := newSelectionStartPosition.column
                positionLineNumber := newSelectionEndPosition.lineNumber
                positionColumn := newSelectionEndPosition.column })

end TextAreaInput

/-! ## Concrete states used by witnesses and counterexamples -/

/-- A trivial stand-in for `TextAreaState.deduceEditorPosition`, whose real
algorithm lives in `textAreaState.ts`; the selection-change claims quantify
over this function, so witnesses may pick any instance. -/
def trivialDeduceEditorPosition : TextAreaState → Nat → Position × Nat × Nat :=
  fun _ offset => (⟨1, 1⟩, offset, 0)

/-- A trivial stand-in for the host's `deduceModelPosition` callback. -/
def trivialDeduceModelPosition : Position → Nat → Nat → Position :=
  fun p deltaOffset _ => ⟨p.lineNumber, p.column + deltaOffset⟩

/-- A focused engine in the middle of a composition. -/
def composingEngine : TextAreaInput :=
  { textAreaState := TextAreaState.EMPTY
    hasFocus := true
    isDoingComposition := true
    nextCommand := ReadFromTextArea.typeCmd
    textArea :=
      { actual := { value := [], selectionStart := 0, selectionEnd := 0, focused := true }
        ignoreSelectionChangeTime := 0 }
    previousSelectionChangeEventTime := 0 }

/-- A focused, non-composing engine whose snapshot has anchors and value
`abc` and whose widget holds `abc` with selection 0..3 (differing from the
snapshot selection 1..1), so a selection-change signal can fire. -/
def firingEngine : TextAreaInput :=
  { textAreaState :=
      { value := [97, 98, 99], selectionStart := 1, selectionEnd := 1
        selectionStartPosition := some ⟨1, 2⟩, selectionEndPosition := some ⟨1, 2⟩ }
    hasFocus := true
    isDoingComposition := false
    nextCommand := ReadFromTextArea.typeCmd
    textArea :=
      { actual := { value := [97, 98, 99], selectionStart := 0, selectionEnd := 3, focused := true }
        ignoreSelectionChangeTime := 0 }
    previousSelectionChangeEventTime := 0 }

/-- `firingEngine` with focus absent. -/
def unfocusedEngine : TextAreaInput :=
  { firingEngine with hasFocus := false }

/-- A non-composing engine whose widget holds a lone high surrogate (0xD83D)
against an empty snapshot, so the deduced input is a lone high surrogate. -/
def surrogateEngine : TextAreaInput :=
  { textAreaState := TextAreaState.EMPTY
    hasFocus := true
    isDoingComposition := false
    nextCommand := ReadFromTextArea.typeCmd
    textArea :=
      { actual := { value := [0xD83D], selectionStart := 1, selectionEnd := 1, focused := true }
        ignoreSelectionChangeTime := 0 }
    previousSelectionChangeEventTime := 0 }

/-- An engine with the `Paste` pending command armed and the widget holding
`hi` against an empty snapshot. -/
def pastePendingEngine : TextAreaInput :=
  { textAreaState := TextAreaState.EMPTY
    hasFocus := true
    isDoingComposition := false
    nextCommand := ReadFromTextArea.pasteCmd
    textArea :=
      { actual := { value := [104, 105], selectionStart := 2, selectionEnd := 2, focused := true }
        ignoreSelectionChangeTime := 0 }
    previousSelectionChangeEventTime := 0 }

/-- The code units of `pasted text`. -/
def pastedText : JSString := jsOf "pasted text"

/-- `firingEngine` after a paste signal whose clipboard read is impossible
(neither clipboard API present). -/
def afterDeniedPaste : TextAreaInput := (firingEngine.onPaste ⟨none, none⟩ 1000).1

/-- `afterDeniedPaste` once the platform has delivered the pasted text into
the widget, just before the raw-input signal. -/
def beforePasteInput : TextAreaInput :=
  { afterDeniedPaste with
    textArea :=
      { afterDeniedPaste.textArea with
        actual :=
          { afterDeniedPaste.textArea.actual with
            value := pastedText, selectionStart := 11, selectionEnd := 11 } } }

/-! ## Helper lemmas -/

/-- A fired selection-change-request implies every guard of the
`selectionchange` listener passed. -/
lemma onSelectionChange_fire_conditions (e : TextAreaInput) (isChrome isWindows : Bool)
    (dep : TextAreaState → Nat → Position × Nat × Nat)
    (dmp : Position → Nat → Nat → Position) (now : Nat)
    (h : (e.onSelectionChange isChrome isWindows dep dmp now).2.isSome = true) :
    e.hasFocus = true ∧ e.isDoingComposition = false ∧ isChrome = true ∧ isWindows = true ∧
    ¬ (now - e.previousSelectionChangeEventTime < 5) ∧
    ¬ (now - e.textArea.getIgnoreSelectionChangeTime < 100) ∧
    e.textAreaState.selectionStartPosition.isSome = true ∧
    e.textAreaState.selectionEndPosition.isSome = true ∧
    e.textAreaState.value = e.textArea.getValue ∧
    ¬ (e.textAreaState.selectionStart = e.textArea.getSelectionStart ∧
       e.textAreaState.selectionEnd = e.textArea.getSelectionEnd) := by
  unfold TextAreaInput.onSelectionChange at h
  dsimp only at h
  split_ifs at h <;>
    simp_all [Option.isSome_iff_ne_none, TextAreaWrapper.resetSelectionChangeTime,
      TextAreaWrapper.getValue, TextAreaWrapper.getSelectionStart,
      TextAreaWrapper.getSelectionEnd, TextAreaWrapper.getIgnoreSelectionChangeTime]

/-- Once a selection-change signal passes the focus, composition, platform
and 5ms guards, the resulting engine state is exactly the input state with
the burst timestamp set to `now` and the self-inflicted timestamp zeroed. -/
lemma onSelectionChange_reach_state (e : TextAreaInput) (isChrome isWindows : Bool)
    (dep : TextAreaState → Nat → Position × Nat × Nat)
    (dmp : Position → Nat → Nat → Position) (now : Nat)
    (hf : e.hasFocus = true) (hc : e.isDoingComposition = false)
    (hch : isChrome = true) (hw : isWindows = true)
    (h5 : ¬ (now - e.previousSelectionChangeEventTime < 5)) :
    (e.onSelectionChange isChrome isWindows dep dmp now).1 =
      { e with previousSelectionChangeEventTime := now
               textArea := e.textArea.resetSelectionChangeTime } := by
  unfold TextAreaInput.onSelectionChange
  dsimp only
  split_ifs <;> simp_all [TextAreaWrapper.resetSelectionChangeTime]

/-- A selection-change signal passing the focus, composition and platform
guards sets the burst timestamp to `now`, whether or not the 5ms filter
passes. -/
lemma onSelectionChange_sets_prev (e : TextAreaInput) (isChrome isWindows : Bool)
    (dep : TextAreaState → Nat → Position × Nat × Nat)
    (dmp : Position → Nat → Nat → Position) (now : Nat)
    (hf : e.hasFocus = true) (hc : e.isDoingComposition = false)
    (hch : isChrome = true) (hw : isWindows = true) :
    (e.onSelectionChange isChrome isWindows dep dmp now).1.previousSelectionChangeEventTime
      = now := by
  unfold TextAreaInput.onSelectionChange
  dsimp only
  split_ifs <;> simp_all

/-- Marking the self-inflicted timestamp does not change what the `input`
listener deduces from the textarea. -/
lemma deduceInput_from_ignore_marked (e : TextAreaInput) (now : Nat) (b : Bool) :
    TextAreaInput.deduceInputFromTextAreaValue
      { e with textArea := e.textArea.setIgnoreSelectionChangeTime now } b
      = e.deduceInputFromTextAreaValue b := rfl

/-! ## Claims -/

/-- C1: for every external selection-change signal, no selection-change-request
is emitted while a composition is in progress, or while the widget lacks
focus, or when fewer than 100ms have elapsed since the adapter's
self-inflicted-change timestamp, or when the widget's live value differs from
the current snapshot's stored value. -/
theorem c1_no_request_when_suppressed (e : TextAreaInput) (isChrome isWindows : Bool)
    (dep : TextAreaState → Nat → Position × Nat × Nat)
    (dmp : Position → Nat → Nat → Position) (now : Nat)
    (h : e.isDoingComposition = true ∨ e.hasFocus = false ∨
         now - e.textArea.getIgnoreSelectionChangeTime < 100 ∨
         e.textArea.getValue ≠ e.textAreaState.value) :
    (e.onSelectionChange isChrome isWindows dep dmp now).2 = none := by
  by_contra hne
  have hs : (e.onSelectionChange isChrome isWindows dep dmp now).2.isSome = true :=
    Option.ne_none_iff_isSome.mp hne
  obtain ⟨hf, hc, -, -, -, h100, -, -, hv, -⟩ :=
    onSelectionChange_fire_conditions e isChrome isWindows dep dmp now hs
  rcases h with h | h | h | h
  · simp_all
  · simp_all
  · exact h100 h
  · exact h hv.symm

/-- C1 witness: a selection-change signal during composition yields no
request. -/
theorem c1_witness :
    (composingEngine.onSelectionChange true true trivialDeduceEditorPosition
      trivialDeduceModelPosition 1000).2 = none :=
  c1_no_request_when_suppressed composingEngine true true trivialDeduceEditorPosition
    trivialDeduceModelPosition 1000 (Or.inl rfl)

/-- C2 counterexample: a paste signal whose clipboard read succeeds but yields
the empty string, with a non-collapsed widget selection, leaves
`PendingCommand` at `Type` and the snapshot untouched (not reset to the empty
snapshot), contradicting the claim that this situation arms `Paste`. -/
theorem c2_counterexample_empty_read_does_not_arm_paste :
    ClipboardEventUtils.getTextData ⟨some [], none⟩ = Except.ok [] ∧
    firingEngine.textArea.getSelectionStart ≠ firingEngine.textArea.getSelectionEnd ∧
    (firingEngine.onPaste ⟨some [], none⟩ 1000).1.nextCommand = ReadFromTextArea.typeCmd ∧
    (firingEngine.onPaste ⟨some [], none⟩ 1000).1.textAreaState = firingEngine.textAreaState ∧
    firingEngine.textAreaState ≠ TextAreaState.EMPTY := by
  decide

/-- C2 as amended: when the clipboard APIs do not permit a direct plain-text
read (rather than a read yielding the empty string) and the widget selection
is non-collapsed, the widget is reset to the empty snapshot and
`PendingCommand` is set to `Paste`; the subsequent raw-input signal carrying
`pasted text` is emitted as a paste event and `PendingCommand` is reset to
`Type`. -/
theorem c2_amended_denied_paste_scenario :
    (firingEngine.onPaste ⟨none, none⟩ 1000).2 = none ∧
    afterDeniedPaste.nextCommand = ReadFromTextArea.pasteCmd ∧
    afterDeniedPaste.textAreaState = TextAreaState.EMPTY ∧
    afterDeniedPaste.textArea.getValue = [] ∧
    (beforePasteInput.onInput false false 1050).2 = [Event.paste pastedText] ∧
    (beforePasteInput.onInput false false 1050).1.nextCommand = ReadFromTextArea.typeCmd := by
  decide

/-- C3 counterexample: a raw-input signal outside composition whose deduced
intent is a lone high surrogate (non-empty text) under `PendingCommand =
Type` emits no event at all, contradicting the claim that non-empty deduced
text always yields a type event. -/
theorem c3_counterexample_surrogate_no_type_event :
    surrogateEngine.isDoingComposition = false ∧
    surrogateEngine.nextCommand = ReadFromTextArea.typeCmd ∧
    (surrogateEngine.deduceInputFromTextAreaValue true).2.text ≠ [] ∧
    (surrogateEngine.onInput false true 10).2 = [] := by
  decide

/-- C3 as amended: on a raw-input signal outside composition whose deduced
intent is not the suppressed lone-high-surrogate case, non-empty text yields
a type event under `PendingCommand = Type` and a paste event carrying that
text under `Paste`; any such signal under `Paste` resets `PendingCommand` to
`Type`, even when the deduced text is empty, and empty text emits nothing. -/
theorem c3_amended_input_dispatch (e : TextAreaInput) (isChromev56 isMacintosh : Bool)
    (now : Nat) (hc : e.isDoingComposition = false)
    (hns : ¬ ((e.deduceInputFromTextAreaValue isMacintosh).2.replaceCharCnt = 0 ∧
        (e.deduceInputFromTextAreaValue isMacintosh).2.text.length = 1 ∧
        isHighSurrogate ((e.deduceInputFromTextAreaValue isMacintosh).2.text.headD 0)
          = true)) :
    ((e.deduceInputFromTextAreaValue isMacintosh).2.text ≠ [] →
      e.nextCommand = ReadFromTextArea.typeCmd →
      (e.onInput isChromev56 isMacintosh now).2 =
        [Event.type (e.deduceInputFromTextAreaValue isMacintosh).2]) ∧
    ((e.deduceInputFromTextAreaValue isMacintosh).2.text ≠ [] →
      e.nextCommand = ReadFromTextArea.pasteCmd →
      (e.onInput isChromev56 isMacintosh now).2 =
        [Event.paste (e.deduceInputFromTextAreaValue isMacintosh).2.text]) ∧
    (e.nextCommand = ReadFromTextArea.pasteCmd →
      (e.onInput isChromev56 isMacintosh now).1.nextCommand = ReadFromTextArea.typeCmd) ∧
    ((e.deduceInputFromTextAreaValue isMacintosh).2.text = [] →
      (e.onInput isChromev56 isMacintosh now).2 = []) := by
  unfold TextAreaInput.onInput
  dsimp only
  rw [deduceInput_from_ignore_marked]
  rcases hx : e.deduceInputFromTextAreaValue isMacintosh with ⟨ns, ti⟩
  rw [hx] at hns
  rcases hcmd : e.nextCommand <;> split_ifs <;> simp_all

/-- C3 witness: a raw-input signal under an armed `Paste` pending command
emits the deduced text as a paste event and resets the pending command. -/
theorem c3_witness :
    (pastePendingEngine.onInput false false 7).2 = [Event.paste [104, 105]] ∧
    (pastePendingEngine.onInput false false 7).1.nextCommand = ReadFromTextArea.typeCmd :=
  ⟨(c3_amended_input_dispatch pastePendingEngine false false 7 rfl (by decide)).2.1
      (by decide) rfl,
   (c3_amended_input_dispatch pastePendingEngine false false 7 rfl (by decide)).2.2.1 rfl⟩

/-- C4: a raw-input signal outside composition whose deduced intent has
`replaceCharCount = 0` and text equal to exactly one high-surrogate code unit
emits no event and leaves the engine's current snapshot unchanged. -/
theorem c4_lone_high_surrogate_suppressed (e : TextAreaInput)
    (isChromev56 isMacintosh : Bool) (now : Nat)
    (hc : e.isDoingComposition = false)
    (hr : (e.deduceInputFromTextAreaValue isMacintosh).2.replaceCharCnt = 0)
    (hs : (e.deduceInputFromTextAreaValue isMacintosh).2.text.length = 1)
    (hh : isHighSurrogate ((e.deduceInputFromTextAreaValue isMacintosh).2.text.headD 0)
      = true) :
    (e.onInput isChromev56 isMacintosh now).2 = [] ∧
    (e.onInput isChromev56 isMacintosh now).1.textAreaState = e.textAreaState := by
  unfold TextAreaInput.onInput
  dsimp only
  rw [deduceInput_from_ignore_marked]
  rcases hx : e.deduceInputFromTextAreaValue isMacintosh with ⟨ns, ti⟩
  rw [hx] at hr hs hh
  simp_all

/-- C4 witness: the widget receiving a lone 0xD83D high surrogate produces no
event and retains the empty snapshot. -/
theorem c4_witness :
    (surrogateEngine.onInput false true 10).2 = [] ∧
    (surrogateEngine.onInput false true 10).1.textAreaState = surrogateEngine.textAreaState :=
  c4_lone_high_surrogate_suppressed surrogateEngine false true 10 rfl (by decide) (by decide)
    (by decide)

/-- C5 counterexample: a composition-end signal while not composing still
emits a type event (the handler deduces and fires before the composing
guard), contradicting the claim that the engine emits no event at all for
that signal. -/
theorem c5_counterexample_type_event_still_fired :
    firingEngine.isDoingComposition = false ∧
    (firingEngine.onCompositionEnd false false [] [120] 0).2 =
      [Event.type { text := [120], replaceCharCnt := 0 }] := by
  decide

/-- C5 as amended: a composition-end signal received while not composing
emits no composition-end event and leaves the engine out of the Composing
state, but the handler still deduces the composition input and emits a type
event for it. -/
theorem c5_amended_end_without_start (e : TextAreaInput) (isEdgeOrIE isChrome : Bool)
    (locale data : JSString) (now : Nat) (h : e.isDoingComposition = false) :
    (e.onCompositionEnd isEdgeOrIE isChrome locale data now).1.isDoingComposition = false ∧
    Event.compositionEnd ∉ (e.onCompositionEnd isEdgeOrIE isChrome locale data now).2 ∧
    ∃ typeInput,
      (e.onCompositionEnd isEdgeOrIE isChrome locale data now).2 = [Event.type typeInput] := by
  unfold TextAreaInput.onCompositionEnd
  dsimp only
  split_ifs <;> simp_all

/-- C5 witness: a concrete composition-end without a prior start emits no
composition-end event and stays out of composition. -/
theorem c5_witness :
    (firingEngine.onCompositionEnd false false [] [120] 0).1.isDoingComposition = false ∧
    Event.compositionEnd ∉ (firingEngine.onCompositionEnd false false [] [120] 0).2 :=
  ⟨(c5_amended_end_without_start firingEngine false false [] [120] 0 rfl).1,
   (c5_amended_end_without_start firingEngine false false [] [120] 0 rfl).2.1⟩

/-- C6: a composition-start signal while already Composing is ignored (state
and events unchanged, no duplicate composition-start); otherwise the engine
enters Composing, emits composition-start, and resets the widget to the empty
snapshot except on Edge/IE, where the snapshot and widget are left alone. -/
theorem c6_compositionstart_reentrant_noop_and_reset (e : TextAreaInput)
    (isEdgeOrIE : Bool) (now : Nat) :
    (e.isDoingComposition = true → e.onCompositionStart isEdgeOrIE now = (e, [])) ∧
    (e.isDoingComposition = false →
      (e.onCompositionStart isEdgeOrIE now).1.isDoingComposition = true ∧
      (e.onCompositionStart isEdgeOrIE now).2 = [Event.compositionStart] ∧
      (isEdgeOrIE = false →
        (e.onCompositionStart isEdgeOrIE now).1.textAreaState = TextAreaState.EMPTY ∧
        (e.onCompositionStart isEdgeOrIE now).1.textArea.getValue = []) ∧
      (isEdgeOrIE = true →
        (e.onCompositionStart isEdgeOrIE now).1.textAreaState = e.textAreaState ∧
        (e.onCompositionStart isEdgeOrIE now).1.textArea = e.textArea)) := by
  unfold TextAreaInput.onCompositionStart TextAreaInput.setAndWriteTextAreaState
  dsimp only
  split_ifs <;>
    simp_all [TextAreaState.writeToTextArea, TextAreaWrapper.setValue,
      TextAreaWrapper.setSelectionRange, TextAreaState.collapseSelection,
      TextAreaState.EMPTY, TextAreaWrapper.getValue] <;>
    split_ifs <;> simp_all

/-- C6 witness: a composition-start on a focused, non-composing engine off
Edge/IE enters Composing, fires composition-start and resets snapshot and
widget value. -/
theorem c6_witness :
    (firingEngine.onCompositionStart false 5).1.isDoingComposition = true ∧
    (firingEngine.onCompositionStart false 5).2 = [Event.compositionStart] ∧
    (false = false →
      (firingEngine.onCompositionStart false 5).1.textAreaState = TextAreaState.EMPTY ∧
      (firingEngine.onCompositionStart false 5).1.textArea.getValue = []) ∧
    (false = true →
      (firingEngine.onCompositionStart false 5).1.textAreaState = firingEngine.textAreaState ∧
      (firingEngine.onCompositionStart false 5).1.textArea = firingEngine.textArea) :=
  (c6_compositionstart_reentrant_noop_and_reset firingEngine false 5).2 rfl

/-- C7 counterexample: a selection-change signal received while the widget
lacks focus does not reset the burst timestamp (it stays 0 instead of
becoming the signal time 1000), contradicting the claim that the timestamp is
reset on every received signal. -/
theorem c7_counterexample_unfocused_signal_not_resetting :
    (unfocusedEngine.onSelectionChange true true trivialDeduceEditorPosition
      trivialDeduceModelPosition 1000).1.previousSelectionChangeEventTime = 0 ∧
    (unfocusedEngine.onSelectionChange true true trivialDeduceEditorPosition
      trivialDeduceModelPosition 1000).1.previousSelectionChangeEventTime ≠ 1000 := by
  decide

/-- C7 as amended: two selection-change signals under 5ms apart yield at most
one emitted request (if the first fires, the second is dropped by the burst
filter), and the burst timestamp is reset on every signal that passes the
focus, composition and platform guards — not on every received signal —
regardless of whether the 5ms filter passes. -/
theorem c7_amended_burst_coalescing (e : TextAreaInput) (isChrome isWindows : Bool)
    (dep : TextAreaState → Nat → Position × Nat × Nat)
    (dmp : Position → Nat → Nat → Position) (now1 now2 : Nat)
    (hb : now2 - now1 < 5) :
    ((e.onSelectionChange isChrome isWindows dep dmp now1).2.isSome = true →
      ((e.onSelectionChange isChrome isWindows dep dmp now1).1.onSelectionChange
        isChrome isWindows dep dmp now2).2 = none) ∧
    (e.hasFocus = true → e.isDoingComposition = false → isChrome = true →
      isWindows = true →
      (e.onSelectionChange isChrome isWindows dep dmp now1).1.previousSelectionChangeEventTime
        = now1) := by
  constructor
  · intro hs
    obtain ⟨hf, hc, hch, hw, h5, -⟩ :=
      onSelectionChange_fire_conditions e isChrome isWindows dep dmp now1 hs
    rw [onSelectionChange_reach_state e isChrome isWindows dep dmp now1 hf hc hch hw h5]
    unfold TextAreaInput.onSelectionChange
    dsimp only
    simp_all
  · intro hf hc hch hw
    exact onSelectionChange_sets_prev e isChrome isWindows dep dmp now1 hf hc hch hw

/-- C7 witness: a firing signal at t=1000 followed by one at t=1003 yields no
second request, and the burst timestamp becomes 1000. -/
theorem c7_witness :
    ((firingEngine.onSelectionChange true true trivialDeduceEditorPosition
        trivialDeduceModelPosition 1000).2.isSome = true →
      ((firingEngine.onSelectionChange true true trivialDeduceEditorPosition
          trivialDeduceModelPosition 1000).1.onSelectionChange true true
        trivialDeduceEditorPosition trivialDeduceModelPosition 1003).2 = none) ∧
    (firingEngine.hasFocus = true → firingEngine.isDoingComposition = false →
      true = true → true = true →
      (firingEngine.onSelectionChange true true trivialDeduceEditorPosition
        trivialDeduceModelPosition 1000).1.previousSelectionChangeEventTime = 1000) :=
  c7_amended_burst_coalescing firingEngine true true trivialDeduceEditorPosition
    trivialDeduceModelPosition 1000 1003 (by decide)

/-- C8 counterexample: on Edge/IE with a usable modern clipboard, plain text
of length 2 (below the 65536 threshold) and no force override, rich text is
not requested from the host, contradicting the claimed iff. -/
theorem c8_counterexample_edge_ie_small_text_no_html :
    ([104, 105] : JSString).length < 65536 ∧
    (firingEngine.ensureClipboardGetsEditorSelection ⟨some [], none⟩ true false
      [104, 105] [60] 0).htmlRequested = false := by
  decide

/-- C8 as amended: rich text is requested from the host iff the clipboard is
usable, the browser is not Edge/IE, and the plain text length is below 65536
or the force override is set; every successful write includes the plain text,
and includes rich text only when a non-absent rich value was produced (i.e.
HTML was requested) and the modern event clipboard is in use. -/
theorem c8_amended_html_gating_and_write (e : TextAreaInput) (env : ClipboardEnv)
    (isEdgeOrIE force : Bool) (plain html : JSString) (now : Nat) :
    (e.ensureClipboardGetsEditorSelection env isEdgeOrIE force plain html now).htmlRequested
      = (ClipboardEventUtils.canUseTextData env && !isEdgeOrIE &&
          (decide (plain.length < 65536) || force)) ∧
    (∀ res : ClipboardWrite,
      (e.ensureClipboardGetsEditorSelection env isEdgeOrIE force plain html now).write
        = some (Except.ok res) →
      res.plainText = plain ∧
      (res.htmlText ≠ none →
        (e.ensureClipboardGetsEditorSelection env isEdgeOrIE force plain html now).htmlRequested
          = true ∧
        env.eventClipboardData.isSome = true)) := by
  obtain ⟨eo, wo⟩ := env
  cases eo with
  | none =>
    cases wo with
    | none =>
      constructor
      · simp [TextAreaInput.ensureClipboardGetsEditorSelection,
          ClipboardEventUtils.canUseTextData]
      · intro res hres
        simp [TextAreaInput.ensureClipboardGetsEditorSelection,
          ClipboardEventUtils.canUseTextData] at hres
    | some a =>
      constructor
      · simp [TextAreaInput.ensureClipboardGetsEditorSelection,
          ClipboardEventUtils.canUseTextData]
      · intro res hres
        have hres2 : Except.ok (ClipboardWrite.legacy plain) = Except.ok res :=
          Option.some.inj hres
        have hres3 := Except.ok.inj hres2
        subst hres3
        refine ⟨rfl, ?_⟩
        intro hhtml
        exact absurd rfl hhtml
  | some a =>
    constructor
    · simp [TextAreaInput.ensureClipboardGetsEditorSelection,
        ClipboardEventUtils.canUseTextData]
    · intro res hres
      have hres2 : Except.ok (ClipboardWrite.modern plain
          (if (!isEdgeOrIE && (decide (plain.length < 65536) || force)) = true
            then some html else none)) = Except.ok res := Option.some.inj hres
      have hres3 := Except.ok.inj hres2
      subst hres3
      refine ⟨rfl, ?_⟩
      intro hhtml
      simp only [ClipboardWrite.htmlText] at hhtml
      split at hhtml
      · next hC => exact ⟨hC, rfl⟩
      · exact absurd rfl hhtml

/-- C8 witness: off Edge/IE with a modern clipboard and a 2-unit plain text,
HTML is requested and the modern write carries plain and rich text. -/
theorem c8_witness :
    (firingEngine.ensureClipboardGetsEditorSelection ⟨some [], none⟩ false false
      [104, 105] [60] 0).htmlRequested
      = (ClipboardEventUtils.canUseTextData ⟨some [], none⟩ && !false &&
          (decide (([104, 105] : JSString).length < 65536) || false)) ∧
    ((ClipboardWrite.modern [104, 105] (some [60])).plainText = [104, 105] ∧
     ((ClipboardWrite.modern [104, 105] (some [60])).htmlText ≠ none →
       (firingEngine.ensureClipboardGetsEditorSelection ⟨some [], none⟩ false false
         [104, 105] [60] 0).htmlRequested = true ∧
       (⟨some [], none⟩ : ClipboardEnv).eventClipboardData.isSome = true)) :=
  ⟨(c8_amended_html_gating_and_write firingEngine ⟨some [], none⟩ false false
      [104, 105] [60] 0).1,
   (c8_amended_html_gating_and_write firingEngine ⟨some [], none⟩ false false
      [104, 105] [60] 0).2 (ClipboardWrite.modern [104, 105] (some [60])) (by decide)⟩

/-- C10: whenever the selection-change handler reaches the
self-inflicted-window comparison (all earlier guards pass), it zeroes the
adapter's ignore-change timestamp after reading it, so the next signal
reaching that check compares against a zeroed timestamp and passes it: the
second signal's outcome is decided entirely by the remaining guards (anchors,
value match, selection difference), never by the 100ms filter. -/
theorem c10_ignore_time_reset_once_per_write (e : TextAreaInput)
    (isChrome isWindows : Bool)
    (dep : TextAreaState → Nat → Position × Nat × Nat)
    (dmp : Position → Nat → Nat → Position) (now1 now2 : Nat)
    (hf : e.hasFocus = true) (hc : e.isDoingComposition = false)
    (hch : isChrome = true) (hw : isWindows = true)
    (h5 : ¬ (now1 - e.previousSelectionChangeEventTime < 5))
    (h5b : ¬ (now2 - now1 < 5)) (h100 : 100 ≤ now2) :
    (e.onSelectionChange isChrome isWindows dep dmp now1).1.textArea.ignoreSelectionChangeTime
      = 0 ∧
    (((e.onSelectionChange isChrome isWindows dep dmp now1).1.onSelectionChange
        isChrome isWindows dep dmp now2).2 = none ↔
      (e.textAreaState.selectionStartPosition = none ∨
       e.textAreaState.selectionEndPosition = none ∨
       e.textAreaState.value ≠ e.textArea.getValue ∨
       (e.textAreaState.selectionStart = e.textArea.getSelectionStart ∧
        e.textAreaState.selectionEnd = e.textArea.getSelectionEnd))) := by
  rw [onSelectionChange_reach_state e isChrome isWindows dep dmp now1 hf hc hch hw h5]
  constructor
  · simp [TextAreaWrapper.resetSelectionChangeTime]
  · unfold TextAreaInput.onSelectionChange
    dsimp only
    simp only [hf, hc, hch, hw, TextAreaWrapper.resetSelectionChangeTime,
      TextAreaWrapper.getIgnoreSelectionChangeTime, TextAreaWrapper.getValue,
      TextAreaWrapper.getSelectionStart, TextAreaWrapper.getSelectionEnd]
    split_ifs <;>
      first
      | omega
      | (simp_all [Option.isNone_iff_eq_none, TextAreaWrapper.getValue,
          TextAreaWrapper.getSelectionStart, TextAreaWrapper.getSelectionEnd] <;> tauto)

/-- C10 witness: after a signal at t=1000 reaches the comparison, the
timestamp is zeroed, and a second signal at t=1010 is decided entirely by the
later guards. -/
theorem c10_witness :
    (firingEngine.onSelectionChange true true trivialDeduceEditorPosition
      trivialDeduceModelPosition 1000).1.textArea.ignoreSelectionChangeTime = 0 ∧
    (((firingEngine.onSelectionChange true true trivialDeduceEditorPosition
        trivialDeduceModelPosition 1000).1.onSelectionChange true true
        trivialDeduceEditorPosition trivialDeduceModelPosition 1010).2 = none ↔
      (firingEngine.textAreaState.selectionStartPosition = none ∨
       firingEngine.textAreaState.selectionEndPosition = none ∨
       firingEngine.textAreaState.value ≠ firingEngine.textArea.getValue ∨
       (firingEngine.textAreaState.selectionStart = firingEngine.textArea.getSelectionStart ∧
        firingEngine.textAreaState.selectionEnd = firingEngine.textArea.getSelectionEnd))) :=
  c10_ignore_time_reset_once_per_write firingEngine true true trivialDeduceEditorPosition
    trivialDeduceModelPosition 1000 1010 rfl rfl rfl rfl (by decide) (by decide) (by decide)
/-- C9: `getTextData` and `setTextData` raise the clipboard-unavailable error
exactly when `canUseTextData` is false (neither clipboard API present), and no
source beyond the two APIs is consulted: when both are absent the result is
exactly the cannot-use-text-data error. -/
theorem c9_clipboard_error_iff_no_api (env : ClipboardEnv) (text : JSString)
    (richText : Option JSString) :
    exceptIsOk (ClipboardEventUtils.getTextData env) =
      ClipboardEventUtils.canUseTextData env ∧
    exceptIsOk (ClipboardEventUtils.setTextData env text richText) =
      ClipboardEventUtils.canUseTextData env ∧
    (ClipboardEventUtils.getTextData ⟨none, none⟩ =
      Except.error ClipboardError.cannotUseTextData) ∧
    (ClipboardEventUtils.setTextData ⟨none, none⟩ text richText =
      Except.error ClipboardError.cannotUseTextData) := by
  obtain ⟨e, w⟩ := env
  cases e <;> cases w <;>
    simp [ClipboardEventUtils.getTextData, ClipboardEventUtils.setTextData,
      ClipboardEventUtils.canUseTextData, exceptIsOk]

